import Mathlib

/-!
Shallow embedding of the `xcache` Go caching library.

The embedding models:
* the `Multi` composite cache (`Save` / `Load` / `TTL` / `Stats`), with each
  contained backend represented by its response functions and each run of a
  `Multi` operation additionally producing the trace of backend calls it makes;
* `parseInfoStats`, the Redis INFO report parser;
* `Memory.Save` expiry normalization and `Memory.TTL` unit handling;
* the reconfiguration callbacks (`onConfigChange`) of `Memory`, `Redis6` and
  `Redis7` as event traces recording lock acquisition, construction, migration
  and swap order;
* the `StatsWatcher` `Watch` / `Close` once-guarded state machine.
-/

/-- Go `[]byte` values. -/
abbrev Bytes := List Nat

/-- An error returned by a single backend operation: either the distinguished
`ErrNotFound`, or any other error (identified by a code). -/
inductive CacheErr where
  | notFound
  | other (code : Nat)
deriving DecidableEq, Repr

/-- An error returned by a `Multi` operation: either the distinguished
`ErrNotFound`, or a `xerr.MultiError` aggregating recorded backend errors. -/
inductive MultiErr where
  | notFound
  | agg (errs : List CacheErr)
deriving DecidableEq, Repr

/-- `xerr.MultiError.ErrOrNil`: a multi-error with no recorded error collapses
to `nil` (`none`); otherwise the aggregate is returned. -/
def errOrNil (errs : List CacheErr) : Option MultiErr :=
  if errs = [] then none else some (.agg errs)

/-- The `Stats` structure of the repository (field-for-field). -/
structure Stats where
  memory : Int
  maxMemory : Int
  hits : Int
  misses : Int
  keys : Int
  expired : Int
  evicted : Int
deriving DecidableEq, Repr

/-- The zero `Stats` value (Go `Stats{}`). -/
def Stats.zero : Stats :=
  { memory := 0, maxMemory := 0, hits := 0, misses := 0, keys := 0,
    expired := 0, evicted := 0 }

/-- Field-wise addition of two `Stats` values, as done by `Multi.Stats`. -/
def addStats (a b : Stats) : Stats :=
  { memory := a.memory + b.memory, maxMemory := a.maxMemory + b.maxMemory,
    hits := a.hits + b.hits, misses := a.misses + b.misses,
    keys := a.keys + b.keys, expired := a.expired + b.expired,
    evicted := a.evicted + b.evicted }

/-- A backend of a `Multi` cache, given by its response functions: what its
`Load`, `TTL`, `Save` and `Stats` calls return.  Durations (`time.Duration`)
are integers (nanosecond counts); a `Save` response of `none` is a `nil`
error. -/
structure Backend where
  load : String → Except CacheErr Bytes
  ttl : String → Except CacheErr Int
  save : String → Bytes → Int → Option CacheErr
  stats : Except CacheErr Stats

/-- One backend call made by a `Multi` operation: the call kind, the index of
the backend called, and (for saves) the arguments passed. -/
inductive CacheOp where
  | loadOp (idx : Nat)
  | ttlOp (idx : Nat)
  | saveOp (idx : Nat) (value : Bytes) (expire : Int)
  | statsOp (idx : Nat)
deriving DecidableEq, Repr

/-- Trace of the read-repair loop of `Multi.Load`
(`for i := idx - 1; i >= 0; i--`): `Save` is called on backends
`idx-1`, `idx-2`, …, `0`, in that order, with the found value and the TTL. -/
def repairTrace (value : Bytes) (t : Int) : Nat → List CacheOp
  | 0 => []
  | i + 1 => .saveOp i value t :: repairTrace value t i

/-- The scan loop of `Multi.Load`, over the remaining backends, carrying the
running index.  Returns the outcome (`.ok` value on a hit, or the list of
recorded non-NotFound errors in encounter order) and the call trace.
On a hit at a positive index the backend's TTL is queried; if that succeeds
the read-repair saves are issued; the hit value is returned with no error
regardless of previously recorded errors. -/
def multiLoadGo (key : String) : List Backend → Nat → Except (List CacheErr) Bytes × List CacheOp
  | [], _ => (.error [], [])
  | c :: rest, i =>
    match c.load key with
    | .ok v =>
      if 0 < i then
        match c.ttl key with
        | .ok t => (.ok v, .loadOp i :: .ttlOp i :: repairTrace v t i)
        | .error _ => (.ok v, [.loadOp i, .ttlOp i])
      else (.ok v, [.loadOp i])
    | .error e =>
      let r := multiLoadGo key rest (i + 1)
      (match r.1 with
       | .ok v => .ok v
       | .error errs => if e = .notFound then .error errs else .error (e :: errs),
       .loadOp i :: r.2)

/-- `Multi.Load`: scans the backends from index 0; an exhausted scan returns
`ErrNotFound` when no error was recorded and the aggregated error otherwise. -/
def multiLoad (caches : List Backend) (key : String) : Except MultiErr Bytes × List CacheOp :=
  let r := multiLoadGo key caches 0
  (match r.1 with
   | .ok v => .ok v
   | .error [] => .error .notFound
   | .error errs => .error (.agg errs), r.2)

/-- The loop of `Multi.Save` over the remaining backends: every backend's
`Save` is called; errors are recorded in encounter order. -/
def multiSaveGo (key : String) (value : Bytes) (expire : Int) :
    List Backend → Nat → List CacheErr × List CacheOp
  | [], _ => ([], [])
  | c :: rest, i =>
    let r := multiSaveGo key value expire rest (i + 1)
    (match c.save key value expire with
     | some e => e :: r.1
     | none => r.1,
     .saveOp i value expire :: r.2)

/-- `Multi.Save`: calls `Save` on every backend and returns
`mErr.ErrOrNil()`. -/
def multiSave (caches : List Backend) (key : String) (value : Bytes) (expire : Int) :
    Option MultiErr × List CacheOp :=
  let r := multiSaveGo key value expire caches 0
  (errOrNil r.1, r.2)

/-- Outcome of the `Multi.TTL` scan: either a first non-negative TTL was
found, or the scan was exhausted with the recorded errors. -/
inductive TTLOutcome where
  | found (t : Int)
  | exhausted (errs : List CacheErr)
deriving DecidableEq, Repr

/-- The scan loop of `Multi.TTL`: on a query error the error is recorded and
the scan continues; on success with a non-negative TTL that value is returned
immediately (recorded errors are discarded); on success with a negative TTL
the scan continues with nothing recorded. -/
def multiTTLGo (key : String) : List Backend → Nat → TTLOutcome × List CacheOp
  | [], _ => (.exhausted [], [])
  | c :: rest, i =>
    match c.ttl key with
    | .error e =>
      let r := multiTTLGo key rest (i + 1)
      (match r.1 with
       | .found t => .found t
       | .exhausted errs => .exhausted (e :: errs),
       .ttlOp i :: r.2)
    | .ok t =>
      if 0 ≤ t then (.found t, [.ttlOp i])
      else
        let r := multiTTLGo key rest (i + 1)
        (r.1, .ttlOp i :: r.2)

/-- `Multi.TTL`: a found non-negative TTL is returned with a `nil` error; an
exhausted scan returns `-1` paired with `mErr.ErrOrNil()`. -/
def multiTTL (caches : List Backend) (key : String) : (Int × Option MultiErr) × List CacheOp :=
  let r := multiTTLGo key caches 0
  (match r.1 with
   | .found t => (t, none)
   | .exhausted errs => (-1, errOrNil errs), r.2)

/-- The loop of `Multi.Stats` over the remaining backends: every backend's
`Stats` is queried; successful results are summed field-wise, errors are
recorded in encounter order. -/
def multiStatsGo : List Backend → Nat → (Stats × List CacheErr) × List CacheOp
  | [], _ => ((Stats.zero, []), [])
  | c :: rest, i =>
    let r := multiStatsGo rest (i + 1)
    (match c.stats with
     | .ok st => (addStats st r.1.1, r.1.2)
     | .error e => (r.1.1, e :: r.1.2),
     .statsOp i :: r.2)

/-- `Multi.Stats`: if any backend failed, the zero `Stats` is returned with
the aggregated error (partial sums are discarded); otherwise the field-wise
sum is returned with a `nil` error. -/
def multiStats (caches : List Backend) : (Stats × Option MultiErr) × List CacheOp :=
  let r := multiStatsGo caches 0
  (match errOrNil r.1.2 with
   | some e => (Stats.zero, some e)
   | none => (r.1.1, none), r.2)

/-- Whether a backend's `Load` reports a hit for `key`. -/
def loadHits (b : Backend) (key : String) : Bool :=
  match b.load key with
  | .ok _ => true
  | .error _ => false

/-- The error recorded by the `Multi.Load` scan for one backend: a
non-NotFound `Load` error, and nothing otherwise. -/
def loadRecErr (key : String) (b : Backend) : Option CacheErr :=
  match b.load key with
  | .error CacheErr.notFound => none
  | .error e => some e
  | .ok _ => none

/-- Whether a backend's `TTL` response stops the `Multi.TTL` scan: a
successful query returning a non-negative duration. -/
def ttlStops (b : Backend) (key : String) : Bool :=
  match b.ttl key with
  | .ok t => decide (0 ≤ t)
  | .error _ => false

/-- The error recorded by the `Multi.TTL` scan for one backend. -/
def ttlRecErr (key : String) (b : Backend) : Option CacheErr :=
  match b.ttl key with
  | .error e => some e
  | .ok _ => none

/-- The error recorded by the `Multi.Stats` loop for one backend. -/
def statsRecErr (b : Backend) : Option CacheErr :=
  match b.stats with
  | .error e => some e
  | .ok _ => none

/-- The successful `Stats` responses of a backend list, in order. -/
def statsOks (caches : List Backend) : List Stats :=
  caches.filterMap fun b =>
    match b.stats with
    | .ok st => some st
    | .error _ => none

/-- Field-wise sum of a list of `Stats` values. -/
def sumStats (l : List Stats) : Stats :=
  l.foldr addStats Stats.zero

/-- Go `bytes.Index`: the index of the first occurrence of `needle` in `hay`,
or `none` (Go `-1`) when absent. -/
def bytesIndex : List Char → List Char → Option Nat
  | [], needle => if needle.isPrefixOf ([] : List Char) then some 0 else none
  | c :: t, needle =>
    if needle.isPrefixOf (c :: t) then some 0
    else (bytesIndex t needle).map (· + 1)

/-- Marker `"used_memory:"` of the Redis INFO report. -/
def redisInfoPrefixMem : List Char := "used_memory:".toList

/-- Marker `"maxmemory:"` of the Redis INFO report. -/
def redisInfoPrefixMaxMem : List Char := "maxmemory:".toList

/-- Marker `"total_system_memory:"` of the Redis INFO report. -/
def redisInfoPrefixTotalSystemMem : List Char := "total_system_memory:".toList

/-- Marker `"keyspace_hits:"` of the Redis INFO report. -/
def redisInfoPrefixHits : List Char := "keyspace_hits:".toList

/-- Marker `"keyspace_misses:"` of the Redis INFO report. -/
def redisInfoPrefixMisses : List Char := "keyspace_misses:".toList

/-- Marker `"evicted_keys:"` of the Redis INFO report. -/
def redisInfoPrefixEvictedKeys : List Char := "evicted_keys:".toList

/-- Marker `"expired_keys:"` of the Redis INFO report. -/
def redisInfoPrefixExpiredKeys : List Char := "expired_keys:".toList

/-- The marker set queried on cluster replicas. -/
def clusterReplicaKeyPrefixes : List (List Char) :=
  [redisInfoPrefixHits, redisInfoPrefixMisses]

/-- The marker set queried on cluster masters (and, with a `dbN:keys=` marker
appended, on non-cluster nodes). -/
def clusterMasterKeyPrefixes : List (List Char) :=
  [redisInfoPrefixMem, redisInfoPrefixMaxMem, redisInfoPrefixTotalSystemMem,
   redisInfoPrefixEvictedKeys, redisInfoPrefixExpiredKeys,
   redisInfoPrefixHits, redisInfoPrefixMisses]

/-- Decimal value of a digit run, as `strconv.ParseInt` computes it. -/
def digitsToNat (ds : List Char) : Nat :=
  ds.foldl (fun acc c => acc * 10 + (c.toNat - 48)) 0

/-- `strconv.ParseInt(s, 10, 64)` with the error discarded: the empty string
yields `0`, and an out-of-range value is clamped to `MaxInt64`. -/
def parseIntClamp (ds : List Char) : Int :=
  if ds = [] then 0 else min (digitsToNat ds) 9223372036854775807

/-- The `switch keyPrefix` statement of `parseInfoStats`
(src/redis_config.go:118-139), assigning the parsed value to a `Stats` field.
Note the guards on the two memory markers: `"maxmemory:"` is applied only when
`stats.MaxMemory > 0` already, and `"total_system_memory:"` only when
`stats.MaxMemory == 0`. -/
def applyInfoField (stats : Stats) (kp : List Char) (v : Int) : Stats :=
  if kp = redisInfoPrefixMem then { stats with memory := v }
  else if kp = redisInfoPrefixMaxMem then
    if stats.maxMemory > 0 then { stats with maxMemory := v } else stats
  else if kp = redisInfoPrefixTotalSystemMem then
    if stats.maxMemory = 0 then { stats with maxMemory := v } else stats
  else if kp = redisInfoPrefixEvictedKeys then { stats with evicted := v }
  else if kp = redisInfoPrefixExpiredKeys then { stats with expired := v }
  else if kp = redisInfoPrefixHits then { stats with hits := v }
  else if kp = redisInfoPrefixMisses then { stats with misses := v }
  else { stats with keys := v }

/-- `parseInfoStats` (src/redis_config.go:97-144): for each marker of
`keyPrefixes`, find its first occurrence in the report, read the run of
decimal digits immediately after it (at most 20), convert, and assign to the
field selected by the switch. -/
def parseInfoStats (info : List Char) (keyPrefixes : List (List Char)) : Stats :=
  keyPrefixes.foldl
    (fun stats kp =>
      match bytesIndex info kp with
      | none => stats
      | some idx =>
        applyInfoField stats kp
          (parseIntClamp (((info.drop (idx + kp.length)).takeWhile Char.isDigit).take 20)))
    Stats.zero

/-- A raw INFO report in which `maxmemory` is 100 and `total_system_memory`
is 4000. -/
def infoFixtureC6 : List Char := "maxmemory:100\ntotal_system_memory:4000\n".toList

/-- The spec/doc-intended single-node parse: every marker found sets its
field to the digits following it (so `"maxmemory:"` itself sets `maxMemory`,
with `"total_system_memory:"` a fallback only when `maxmemory` was absent or
zero, per the `Stats.MaxMemory` doc comment). Used to exhibit the divergence
of the code from the claim. -/
def applyInfoFieldClaimed (stats : Stats) (kp : List Char) (v : Int) : Stats :=
  if kp = redisInfoPrefixMem then { stats with memory := v }
  else if kp = redisInfoPrefixMaxMem then { stats with maxMemory := v }
  else if kp = redisInfoPrefixTotalSystemMem then
    if stats.maxMemory = 0 then { stats with maxMemory := v } else stats
  else if kp = redisInfoPrefixEvictedKeys then { stats with evicted := v }
  else if kp = redisInfoPrefixExpiredKeys then { stats with expired := v }
  else if kp = redisInfoPrefixHits then { stats with hits := v }
  else if kp = redisInfoPrefixMisses then { stats with misses := v }
  else { stats with keys := v }

/-- The single-node parse as the spec claims it behaves. -/
def parseInfoStatsClaimed (info : List Char) (keyPrefixes : List (List Char)) : Stats :=
  keyPrefixes.foldl
    (fun stats kp =>
      match bytesIndex info kp with
      | none => stats
      | some idx =>
        applyInfoFieldClaimed stats kp
          (parseIntClamp (((info.drop (idx + kp.length)).takeWhile Char.isDigit).take 20)))
    Stats.zero

/-- The freecache client call issued by `Memory.Save`: either a deletion or a
`Set` with an expiry in whole seconds (`0` = no expiration). -/
inductive FreecacheOp where
  | del (key : String)
  | set (key : String) (value : Bytes) (expireSeconds : Nat)
deriving DecidableEq, Repr

/-- `Memory.Save` (src/memory.go:55-80): a negative expiry deletes the key and
returns `nil`; otherwise the expiry is truncated to whole seconds, a positive
sub-second expiry is normalized up to 1 second, and the entry is stored.
`setRes` gives the result of the underlying `freecache.Cache.Set` call;
durations are nanosecond counts. -/
def memorySave (setRes : String → Bytes → Nat → Option CacheErr)
    (key : String) (value : Bytes) (expire : Int) : FreecacheOp × Option CacheErr :=
  if expire < 0 then (.del key, none)
  else
    let expireSeconds := expire.toNat / 1000000000
    let expireSeconds := if 0 < expire ∧ expireSeconds = 0 then 1 else expireSeconds
    (.set key value expireSeconds, setRes key value expireSeconds)

/-- Result of `freecache.Cache.TTL`: the remaining time to live in whole
seconds, or `ErrNotFound` (the only error that call produces). -/
inductive FreecacheTTLRes where
  | notFound
  | ok (seconds : Nat)
deriving DecidableEq, Repr

/-- `Memory.TTL` (src/memory.go:99-109): `ErrNotFound` maps to `(-1, nil)`;
otherwise the whole-second count is converted by `time.Duration(ttl)` —
without unit scaling, so the numeric (nanosecond) value of the duration is
the seconds count itself. -/
def memoryTTL : FreecacheTTLRes → Int × Option CacheErr
  | .notFound => (-1, none)
  | .ok n => ((n : Int), none)

/-- Events of a reconfiguration callback: taking/releasing the exclusive write
lock, constructing the new backend instance, migrating (copying) existing
entries, swapping the live pointers, and closing the displaced client. -/
inductive ReloadEv where
  | lockW
  | unlockW
  | construct
  | migrate
  | swap
  | closeOld
deriving DecidableEq, Repr

/-- Event order of `Memory.onConfigChange` (src/memory_xconf_adapter.go:63-86)
in the relevant resize case: the write lock is acquired first, and the new
freecache client construction, the migration copy of all entries, and the
pointer swap all happen before the lock is released. -/
def memoryOnConfigChangeTrace : List ReloadEv :=
  [.lockW, .construct, .migrate, .swap, .unlockW]

/-- Event order of `Redis6.onConfigChange` (src/redis6_xconf_adapter.go:37-62)
in the relevant case: the new universal client is constructed before the write
lock is acquired; the lock covers only the pointer swap; the old client is
closed after the lock is released. -/
def redis6OnConfigChangeTrace : List ReloadEv :=
  [.construct, .lockW, .swap, .unlockW, .closeOld]

/-- Event order of `Redis7.onConfigChange` (same structure as `Redis6`). -/
def redis7OnConfigChangeTrace : List ReloadEv :=
  [.construct, .lockW, .swap, .unlockW, .closeOld]

/-- The events performed while the exclusive write lock is held (from the
first `lockW` up to the matching `unlockW`). -/
def exclusiveSection (tr : List ReloadEv) : List ReloadEv :=
  (tr.dropWhile fun e => decide (e ≠ ReloadEv.lockW)).takeWhile
    fun e => decide (e ≠ ReloadEv.unlockW)

/-- Observable state of a `StatsWatcher`: whether the ticker exists, how many
background polling goroutines were started and are alive, whether the
`watchOnce` and `closeOnce` guards were consumed, and whether the finalizer is
registered. -/
structure WatcherState where
  tickerSet : Bool
  pollers : Nat
  watchDone : Bool
  closeDone : Bool
  finalizerSet : Bool
deriving DecidableEq, Repr

/-- The state produced by `NewStatsWatcher`. -/
def initialWatcherState : WatcherState :=
  { tickerSet := false, pollers := 0, watchDone := false, closeDone := false,
    finalizerSet := false }

/-- `StatsWatcher.Watch`: guarded by `sw.watchOnce`; the first call creates
the ticker, starts exactly one background polling goroutine and registers the
finalizer; later calls do nothing. -/
def watcherWatch (s : WatcherState) : WatcherState :=
  if s.watchDone then s
  else
    { s with
      watchDone := true, tickerSet := true, pollers := s.pollers + 1,
      finalizerSet := true }

/-- `StatsWatcher.Close`: when the ticker exists and `closeOnce` was not yet
consumed, the shutdown work is performed (the goroutine is signalled via the
closed channel and awaited, and the finalizer is unregistered); in every
other state nothing is done. The returned triple is the new state, whether
shutdown work was performed, and the returned error — always `nil`. -/
def watcherClose (s : WatcherState) : WatcherState × Bool × Option CacheErr :=
  if s.tickerSet then
    if s.closeDone then (s, false, none)
    else
      ({ s with closeDone := true, pollers := 0, finalizerSet := false }, true, none)
  else (s, false, none)

/-- A backend whose every operation reports `ErrNotFound` (or succeeds
trivially, for `Save`/`Stats`). -/
def bMiss : Backend :=
  { load := fun _ => .error .notFound, ttl := fun _ => .error .notFound,
    save := fun _ _ _ => none, stats := .ok Stats.zero }

/-- A backend whose every operation fails with a non-NotFound error. -/
def bErr7 : Backend :=
  { load := fun _ => .error (.other 7), ttl := fun _ => .error (.other 7),
    save := fun _ _ _ => some (.other 7), stats := .error (.other 7) }

/-- A backend holding a value with a 300s TTL. -/
def bHit300 : Backend :=
  { load := fun _ => .ok [1, 2], ttl := fun _ => .ok 300000000000,
    save := fun _ _ _ => none, stats := .ok Stats.zero }

/-- A backend whose `TTL` reports `(-1, nil)` (absent). -/
def bTTLNeg : Backend :=
  { load := fun _ => .error .notFound, ttl := fun _ => .ok (-1),
    save := fun _ _ _ => none, stats := .ok Stats.zero }

/-- A backend whose `TTL` reports `(0, nil)` (present, no expiry). -/
def bTTLZero : Backend :=
  { load := fun _ => .error .notFound, ttl := fun _ => .ok 0,
    save := fun _ _ _ => none, stats := .ok Stats.zero }

/-- A backend whose `Stats` succeeds with 10 hits. -/
def bStats10 : Backend :=
  { load := fun _ => .error .notFound, ttl := fun _ => .error .notFound,
    save := fun _ _ _ => none,
    stats := .ok { memory := 0, maxMemory := 0, hits := 10, misses := 0,
                   keys := 0, expired := 0, evicted := 0 } }

theorem multiLoadGo_no_hit (key : String) :
    ∀ (l : List Backend) (i : Nat), (∀ b ∈ l, loadHits b key = false) →
      (multiLoadGo key l i).1 = .error (l.filterMap (loadRecErr key)) := by
  intro l
  induction l with
  | nil => intro i _; rfl
  | cons c rest ih =>
    intro i h
    have hc := h c (List.mem_cons_self c rest)
    cases hl : c.load key with
    | ok v => simp [loadHits, hl] at hc
    | error e =>
      have hr := ih (i + 1) (fun b hb => h b (List.mem_cons_of_mem c hb))
      cases e with
      | notFound => simp [multiLoadGo, hl, hr, loadRecErr]
      | other n => simp [multiLoadGo, hl, hr, loadRecErr]

theorem multiLoadGo_hit (key : String) :
    ∀ (idx : Nat) (l : List Backend) (i : Nat) (c : Backend) (v : Bytes),
      (∀ b ∈ l.take idx, loadHits b key = false) →
      l.get? idx = some c → c.load key = .ok v → 0 < i + idx →
      multiLoadGo key l i =
        (.ok v, (List.range' i (idx + 1)).map .loadOp ++ .ttlOp (i + idx) ::
          (match c.ttl key with
           | .ok t => repairTrace v t (i + idx)
           | .error _ => [])) := by
  intro idx
  induction idx with
  | zero =>
    intro l i c v htake hget hload hpos
    match l with
    | c' :: rest =>
      have hc : c' = c := by simpa using hget
      subst hc
      simp only [Nat.add_zero] at hpos ⊢
      cases ht : c'.ttl key with
      | ok t => simp [multiLoadGo, hload, hpos, ht, List.range'_one]
      | error e => simp [multiLoadGo, hload, hpos, ht, List.range'_one]
  | succ n ihn =>
    intro l i c v htake hget hload hpos
    match l with
    | c0 :: rest =>
      have h0 : loadHits c0 key = false := htake c0 (by simp)
      cases hl0 : c0.load key with
      | ok v0 => simp [loadHits, hl0] at h0
      | error e =>
        have hr := ihn rest (i + 1) c v
          (fun b hb => htake b (by simp [hb]))
          (by simpa using hget) hload (by omega)
        have harith : i + 1 + n = i + (n + 1) := by omega
        cases ht : c.ttl key with
        | ok t =>
          simp only [ht] at hr
          simp [multiLoadGo, hl0, hr, ht, List.range'_succ, harith]
        | error e2 =>
          simp only [ht] at hr
          simp [multiLoadGo, hl0, hr, ht, List.range'_succ, harith]

/-- C1: when the `Multi.Load` scan exhausts all backends without a hit, the
result is `ErrNotFound` when every backend reported "not found" (so nothing
was recorded), and otherwise the aggregated error containing every recorded
non-NotFound error, in place of `ErrNotFound`. -/
theorem multiLoad_exhausted_spec (caches : List Backend) (key : String)
    (h : ∀ b ∈ caches, loadHits b key = false) :
    (multiLoad caches key).1 =
      if caches.filterMap (loadRecErr key) = [] then .error .notFound
      else .error (.agg (caches.filterMap (loadRecErr key))) := by
  have hr := multiLoadGo_no_hit key caches 0 h
  cases hE : caches.filterMap (loadRecErr key) with
  | nil => simp [multiLoad, hr, hE]
  | cons e es => simp [multiLoad, hr, hE]

/-- C1 witness: with backend 0 failing with a non-NotFound error and backend 1
reporting "not found", `Load` returns the aggregated error holding exactly
that failure. -/
theorem multiLoad_exhausted_witness :
    (∀ b ∈ [bErr7, bMiss], loadHits b "k" = false) ∧
    (multiLoad [bErr7, bMiss] "k").1 = .error (.agg [.other 7]) := by
  have h : ∀ b ∈ [bErr7, bMiss], loadHits b "k" = false := by
    intro b hb
    simp only [List.mem_cons, List.not_mem_nil, or_false] at hb
    rcases hb with rfl | rfl <;> rfl
  exact ⟨h, (multiLoad_exhausted_spec [bErr7, bMiss] "k" h).trans rfl⟩

/-- C2: when `Multi.Load` first hits at index `idx > 0`, the winning backend's
TTL is queried; on TTL failure the read-repair is skipped entirely, on TTL
success `ttl` the found value is saved with expiry `ttl` into backends
`idx-1` down to `0` in descending order (save errors being discarded — the
result does not depend on them); in all cases the found value is returned
with a `nil` error. -/
theorem multiLoad_read_repair (caches : List Backend) (key : String) (idx : Nat)
    (c : Backend) (v : Bytes)
    (hpos : 0 < idx)
    (htake : ∀ b ∈ caches.take idx, loadHits b key = false)
    (hget : caches.get? idx = some c) (hload : c.load key = .ok v) :
    multiLoad caches key =
      (.ok v, (List.range (idx + 1)).map .loadOp ++ .ttlOp idx ::
        (match c.ttl key with
         | .ok t => repairTrace v t idx
         | .error _ => [])) := by
  have h := multiLoadGo_hit key idx caches 0 c v htake hget hload (by omega)
  simp only [Nat.zero_add] at h
  simp [multiLoad, h, List.range_eq_range']

/-- C2 witness: backend 0 empty and backend 1 holding the value with a 300s
TTL: `Load` returns the value and writes it back into backend 0 with that
TTL. -/
theorem multiLoad_read_repair_witness :
    0 < 1 ∧ (∀ b ∈ [bMiss, bHit300].take 1, loadHits b "k" = false) ∧
    [bMiss, bHit300].get? 1 = some bHit300 ∧ bHit300.load "k" = .ok [1, 2] ∧
    multiLoad [bMiss, bHit300] "k" =
      (.ok [1, 2], [.loadOp 0, .loadOp 1, .ttlOp 1, .saveOp 0 [1, 2] 300000000000]) := by
  have htake : ∀ b ∈ [bMiss, bHit300].take 1, loadHits b "k" = false := by
    intro b hb
    simp only [List.take, List.mem_cons, List.not_mem_nil, or_false] at hb
    subst hb; rfl
  exact ⟨by decide, htake, rfl, rfl,
    (multiLoad_read_repair [bMiss, bHit300] "k" 1 bHit300 [1, 2]
      (by decide) htake rfl rfl).trans rfl⟩

theorem multiSaveGo_spec (key : String) (value : Bytes) (expire : Int) :
    ∀ (l : List Backend) (i : Nat),
      multiSaveGo key value expire l i =
        (l.filterMap (fun b => b.save key value expire),
         (List.range' i l.length).map (fun j => .saveOp j value expire)) := by
  intro l
  induction l with
  | nil => intro i; rfl
  | cons c rest ih =>
    intro i
    cases hs : c.save key value expire <;>
      simp [multiSaveGo, hs, ih (i + 1), List.range'_succ]

theorem errOrNil_eq_none (errs : List CacheErr) : errOrNil errs = none ↔ errs = [] := by
  by_cases h : errs = [] <;> simp [errOrNil, h]

/-- C3: `Multi.Save` invokes `Save` on every backend in index order,
unconditionally; the result is `mErr.ErrOrNil()` over the failing backends'
errors in order, which is `nil` iff every backend succeeded and otherwise the
aggregate containing each failing backend's error. -/
theorem multiSave_spec (caches : List Backend) (key : String) (value : Bytes)
    (expire : Int) :
    multiSave caches key value expire =
      (errOrNil (caches.filterMap fun b => b.save key value expire),
       (List.range caches.length).map fun j => .saveOp j value expire) ∧
    ((multiSave caches key value expire).1 = none ↔
      ∀ b ∈ caches, b.save key value expire = none) := by
  have h1 : multiSave caches key value expire =
      (errOrNil (caches.filterMap fun b => b.save key value expire),
       (List.range caches.length).map fun j => .saveOp j value expire) := by
    simp [multiSave, multiSaveGo_spec, List.range_eq_range']
  refine ⟨h1, ?_⟩
  rw [h1]
  simp [errOrNil_eq_none, List.filterMap_eq_nil_iff]

/-- C3 witness: with backend 0 failing and backend 1 succeeding, both backends
are still saved to, in order, and the aggregated error holds the failure. -/
theorem multiSave_spec_witness :
    multiSave [bErr7, bMiss] "k" [1] 5 =
      (some (.agg [.other 7]), [.saveOp 0 [1] 5, .saveOp 1 [1] 5]) :=
  (multiSave_spec [bErr7, bMiss] "k" [1] 5).1.trans rfl

theorem multiStatsGo_spec :
    ∀ (l : List Backend) (i : Nat),
      multiStatsGo l i =
        ((sumStats (statsOks l), l.filterMap statsRecErr),
         (List.range' i l.length).map .statsOp) := by
  intro l
  induction l with
  | nil => intro i; rfl
  | cons c rest ih =>
    intro i
    cases hs : c.stats with
    | ok st => simp [multiStatsGo, hs, ih (i + 1), List.range'_succ, sumStats,
        statsOks, statsRecErr]
    | error e => simp [multiStatsGo, hs, ih (i + 1), List.range'_succ, sumStats,
        statsOks, statsRecErr]

/-- C4: `Multi.Stats` queries every backend; if any query failed the result is
the zero `Stats` paired with the aggregated error (sums from successful
backends are discarded), and if all succeeded it is the field-wise sum with a
`nil` error. -/
theorem multiStats_spec (caches : List Backend) :
    multiStats caches =
      (if caches.filterMap statsRecErr = [] then (sumStats (statsOks caches), none)
       else (Stats.zero, some (.agg (caches.filterMap statsRecErr))),
       (List.range caches.length).map .statsOp) := by
  by_cases h : caches.filterMap statsRecErr = [] <;>
    simp [multiStats, multiStatsGo_spec, errOrNil, h, List.range_eq_range']

/-- C4 witness: backend 0 succeeding with 10 hits and backend 1 failing:
`Stats` returns the zero value and the aggregated error — the 10 hits are not
visible. -/
theorem multiStats_spec_witness :
    multiStats [bStats10, bErr7] =
      ((Stats.zero, some (.agg [.other 7])), [.statsOp 0, .statsOp 1]) :=
  (multiStats_spec [bStats10, bErr7]).trans rfl

theorem multiTTLGo_stop (key : String) :
    ∀ (idx : Nat) (l : List Backend) (i : Nat) (c : Backend) (t : Int),
      (∀ b ∈ l.take idx, ttlStops b key = false) → l.get? idx = some c →
      c.ttl key = .ok t → 0 ≤ t →
      multiTTLGo key l i = (.found t, (List.range' i (idx + 1)).map .ttlOp) := by
  intro idx
  induction idx with
  | zero =>
    intro l i c t htake hget httl hnn
    match l with
    | c' :: rest =>
      have hc : c' = c := by simpa using hget
      subst hc
      simp [multiTTLGo, httl, hnn, List.range'_one]
  | succ n ihn =>
    intro l i c t htake hget httl hnn
    match l with
    | c0 :: rest =>
      have h0 : ttlStops c0 key = false := htake c0 (by simp)
      have hr := ihn rest (i + 1) c t (fun b hb => htake b (by simp [hb]))
        (by simpa using hget) httl hnn
      cases ht0 : c0.ttl key with
      | error e => simp [multiTTLGo, ht0, hr, List.range'_succ]
      | ok t0 =>
        have hneg : ¬ (0 ≤ t0) := by simpa [ttlStops, ht0] using h0
        simp [multiTTLGo, ht0, hneg, hr, List.range'_succ]

theorem multiTTLGo_exhausted (key : String) :
    ∀ (l : List Backend) (i : Nat), (∀ b ∈ l, ttlStops b key = false) →
      multiTTLGo key l i =
        (.exhausted (l.filterMap (ttlRecErr key)),
         (List.range' i l.length).map .ttlOp) := by
  intro l
  induction l with
  | nil => intro i _; rfl
  | cons c rest ih =>
    intro i h
    have h0 : ttlStops c key = false := h c (by simp)
    have hr := ih (i + 1) (fun b hb => h b (by simp [hb]))
    cases ht : c.ttl key with
    | error e => simp [multiTTLGo, ht, hr, List.range'_succ, ttlRecErr]
    | ok t =>
      have hneg : ¬ (0 ≤ t) := by simpa [ttlStops, ht] using h0
      simp [multiTTLGo, ht, hneg, hr, List.range'_succ, ttlRecErr]

/-- C5: the `Multi.TTL` scan proceeds in index order, recording errors and
continuing; the first backend whose TTL query succeeds with a non-negative
duration (0 included) stops the scan — that duration is returned with a `nil`
error and no later backend is queried; if no backend stops the scan, the
result is `-1` paired with the aggregated error when any was recorded and
`nil` otherwise. -/
theorem multiTTL_spec (caches : List Backend) (key : String) :
    (∀ (idx : Nat) (c : Backend) (t : Int),
      (∀ b ∈ caches.take idx, ttlStops b key = false) → caches.get? idx = some c →
      c.ttl key = .ok t → 0 ≤ t →
      multiTTL caches key = ((t, none), (List.range (idx + 1)).map .ttlOp)) ∧
    ((∀ b ∈ caches, ttlStops b key = false) →
      multiTTL caches key =
        ((-1, errOrNil (caches.filterMap (ttlRecErr key))),
         (List.range caches.length).map .ttlOp)) := by
  constructor
  · intro idx c t htake hget httl hnn
    have h := multiTTLGo_stop key idx caches 0 c t htake hget httl hnn
    simp [multiTTL, h, List.range_eq_range']
  · intro h
    have hr := multiTTLGo_exhausted key caches 0 h
    cases hE : caches.filterMap (ttlRecErr key) with
    | nil => simp [multiTTL, hr, hE, errOrNil, List.range_eq_range']
    | cons e es => simp [multiTTL, hr, hE, errOrNil, List.range_eq_range']

/-- C5 witness: backend 0 answers `(-1, nil)`, backend 1 answers `(0, nil)`
(present, no expiry): `TTL` returns `(0, nil)` and backend 2 is never
queried (the trace stops at index 1). -/
theorem multiTTL_spec_witness :
    (∀ b ∈ [bTTLNeg, bTTLZero, bErr7].take 1, ttlStops b "k" = false) ∧
    [bTTLNeg, bTTLZero, bErr7].get? 1 = some bTTLZero ∧
    bTTLZero.ttl "k" = .ok 0 ∧ (0 : Int) ≤ 0 ∧
    multiTTL [bTTLNeg, bTTLZero, bErr7] "k" = ((0, none), [.ttlOp 0, .ttlOp 1]) := by
  have htake : ∀ b ∈ [bTTLNeg, bTTLZero, bErr7].take 1, ttlStops b "k" = false := by
    intro b hb
    simp only [List.take, List.mem_cons, List.not_mem_nil, or_false] at hb
    subst hb; rfl
  exact ⟨htake, rfl, rfl, by decide,
    ((multiTTL_spec [bTTLNeg, bTTLZero, bErr7] "k").1 1 bTTLZero 0 htake rfl rfl
      (by decide)).trans rfl⟩

/-- C6: divergence of `parseInfoStats` from the claimed behavior, at a report
containing `maxmemory:100` and `total_system_memory:4000`. The `"maxmemory:"`
marker occurs (at index 0) and is followed by the digit run `100`, yet the
code leaves `MaxMemory` untouched there (its guard `stats.MaxMemory > 0` can
never hold when that marker is processed) and later overwrites it with the
`total_system_memory` value `4000`; the claimed per-marker assignment (also
what the `Stats.MaxMemory` doc describes) would yield `100`. -/
theorem parseInfoStats_maxMem_divergence :
    bytesIndex infoFixtureC6 redisInfoPrefixMaxMem = some 0 ∧
    ((infoFixtureC6.drop redisInfoPrefixMaxMem.length).takeWhile Char.isDigit).take 20 =
      "100".toList ∧
    (parseInfoStats infoFixtureC6 clusterMasterKeyPrefixes).maxMemory = 4000 ∧
    (parseInfoStatsClaimed infoFixtureC6 clusterMasterKeyPrefixes).maxMemory = 100 := by
  exact ⟨by decide, by decide, by decide, by decide⟩

/-- C7: `Memory.Save` normalizes a positive sub-second expiry up to one whole
second (never "no expiry"), passes an expiry of exactly 0 through as no
expiration, and on a negative expiry deletes the key and returns `nil`. -/
theorem memorySave_expiry_spec (setRes : String → Bytes → Nat → Option CacheErr)
    (key : String) (value : Bytes) (expire : Int) :
    (0 < expire → expire < 1000000000 →
      (memorySave setRes key value expire).1 = .set key value 1) ∧
    (expire = 0 → (memorySave setRes key value expire).1 = .set key value 0) ∧
    (expire < 0 → memorySave setRes key value expire = (.del key, none)) := by
  refine ⟨?_, ?_, ?_⟩
  · intro h1 h2
    have hnn : ¬ expire < 0 := by omega
    have hdiv : expire.toNat / 1000000000 = 0 := Nat.div_eq_of_lt (by omega)
    simp [memorySave, hnn, hdiv, h1]
  · intro h; subst h; rfl
  · intro h; simp [memorySave, h]

/-- C7 witness: a 0.5s expiry is stored with 1 second, 0 is stored with no
expiration, and a negative expiry deletes with a `nil` error. -/
theorem memorySave_expiry_witness :
    ((0 : Int) < 500000000 ∧ (500000000 : Int) < 1000000000 ∧
      (memorySave (fun _ _ _ => none) "k" [9] 500000000).1 = .set "k" [9] 1) ∧
    (memorySave (fun _ _ _ => none) "k" [9] (-5) = (.del "k", none)) ∧
    (memorySave (fun _ _ _ => none) "k" [9] 0).1 = .set "k" [9] 0 := by
  refine ⟨⟨by decide, by decide, ?_⟩, ?_, ?_⟩
  · exact (memorySave_expiry_spec (fun _ _ _ => none) "k" [9] 500000000).1
      (by decide) (by decide)
  · exact (memorySave_expiry_spec (fun _ _ _ => none) "k" [9] (-5)).2.2 (by decide)
  · exact (memorySave_expiry_spec (fun _ _ _ => none) "k" [9] 0).2.1 rfl

/-- C8 counterexample: it is not the case that, for all three reloadable
backends, the construction of the new instance (and, for Memory, the
migration copy) stays outside the exclusive write-locked section — the
`Memory.onConfigChange` trace performs both inside it. -/
theorem reload_construct_locked_counterexample :
    ¬ (ReloadEv.construct ∉ exclusiveSection memoryOnConfigChangeTrace ∧
       ReloadEv.migrate ∉ exclusiveSection memoryOnConfigChangeTrace ∧
       ReloadEv.construct ∉ exclusiveSection redis6OnConfigChangeTrace ∧
       ReloadEv.construct ∉ exclusiveSection redis7OnConfigChangeTrace) := by
  decide

/-- C8 amended: for `Redis6` and `Redis7` the new client is constructed
outside the exclusive section, which contains only the pointer swap; for
`Memory`, however, both the construction of the new instance and the
migration copy of existing entries happen inside the exclusive write-locked
section, so the write lock is held for the whole rebuild. -/
theorem reload_lock_discipline :
    exclusiveSection redis6OnConfigChangeTrace = [.lockW, .swap] ∧
    exclusiveSection redis7OnConfigChangeTrace = [.lockW, .swap] ∧
    ReloadEv.construct ∉ exclusiveSection redis6OnConfigChangeTrace ∧
    ReloadEv.construct ∉ exclusiveSection redis7OnConfigChangeTrace ∧
    ReloadEv.construct ∈ exclusiveSection memoryOnConfigChangeTrace ∧
    ReloadEv.migrate ∈ exclusiveSection memoryOnConfigChangeTrace := by
  decide

/-- C9: `StatsWatcher.Watch` is idempotent — a second call changes nothing
(in particular no additional poller is started); `Close` before `Watch`
performs no shutdown work and leaves the state unchanged; a second `Close`
after a first one performs no shutdown work; and `Close` returns `nil` from
every state. -/
theorem statsWatcher_once_spec :
    (∀ s, watcherWatch (watcherWatch s) = watcherWatch s) ∧
    (∀ s, (watcherWatch (watcherWatch s)).pollers = (watcherWatch s).pollers) ∧
    (∀ s, s.tickerSet = false → watcherClose s = (s, false, none)) ∧
    (∀ s, watcherClose (watcherClose s).1 = ((watcherClose s).1, false, none)) ∧
    (∀ s, (watcherClose s).2.2 = none) := by
  refine ⟨?_, ?_, ?_, ?_, ?_⟩
  · intro s; cases hw : s.watchDone <;> simp [watcherWatch, hw]
  · intro s; cases hw : s.watchDone <;> simp [watcherWatch, hw]
  · intro s h; simp [watcherClose, h]
  · intro s
    cases h1 : s.tickerSet <;> cases h2 : s.closeDone <;>
      simp [watcherClose, h1, h2]
  · intro s
    cases h1 : s.tickerSet <;> cases h2 : s.closeDone <;>
      simp [watcherClose, h1, h2]

/-- C9 witness: for a freshly constructed watcher (no ticker yet), `Close`
does nothing and returns `nil`. -/
theorem statsWatcher_once_witness :
    initialWatcherState.tickerSet = false ∧
    watcherClose initialWatcherState = (initialWatcherState, false, none) :=
  ⟨rfl, statsWatcher_once_spec.2.2.1 initialWatcherState rfl⟩

/-- C10: `Memory.TTL` always returns a `nil` error; an absent key yields
`(-1, nil)`; a present key with `n` whole seconds remaining yields a duration
whose numeric (nanosecond) value is `n` itself — no unit scaling is applied
(e.g. 5 remaining seconds do not become `5s` in nanoseconds). -/
theorem memoryTTL_spec :
    (∀ r, (memoryTTL r).2 = none) ∧
    memoryTTL .notFound = (-1, none) ∧
    (∀ n : Nat, (memoryTTL (.ok n)).1 = (n : Int)) ∧
    (memoryTTL (.ok 5)).1 ≠ 5 * 1000000000 := by
  refine ⟨?_, rfl, ?_, by decide⟩
  · intro r; cases r <;> rfl
  · intro n; rfl

/-- C10 witness: 5 remaining whole seconds yield the duration with numeric
value 5. -/
theorem memoryTTL_spec_witness : (memoryTTL (.ok 5)).1 = (5 : Int) :=
  memoryTTL_spec.2.2.1 5
